import Mathlib

/-!
Formal model of a two-variant chest X-ray annotation tool.

The program is a pair of Streamlit scripts operating on a pandas
DataFrame loaded from a CSV file:

* Variant A (`apl.py`): a raw row cursor `current_index` with a
  skip-forward-over-labeled scan loop, local CSV persistence.
* Variant B (`app1.py`): a materialized list `unlabeled_indices` of
  row positions whose `Label_Flag` coerces to 0, with a position
  pointer `current_pos`, remote (GitHub) persistence, a pre-save
  identity check (`verify_before_save`) and a full recompute of the
  session state after each successful save (`update_system`).

Cell values are modelled by an inductive `Value` covering the Python
values actually stored in the frame cells: numbers, strings, booleans
and missing data (NaN).  A row carries the columns the scripts touch
plus one representative untouched column `other`.  The CSV store is
modelled as the list of rows it holds; serialization is out of scope,
so a successful write makes the store equal to the in-memory table.
-/

namespace Pneumo

/-- A cell value of the data frame: number, string, boolean or missing. -/
inductive Value where
  | num (n : Int)
  | str (s : String)
  | bool (b : Bool)
  | na
deriving DecidableEq, Repr

/-- One row of the table.  `colIndex` is the `Index` column, `other`
stands for any further column the program never writes. -/
structure Row where
  colIndex : Value
  imageName : String
  labelFlag : Value
  ptype : Value
  psize : Value
  side : Value
  drop : Value
  other : Value
deriving DecidableEq, Repr

instance : Inhabited Row :=
  ⟨⟨Value.na, "", Value.na, Value.na, Value.na, Value.na, Value.na, Value.na⟩⟩

/-- Python truthiness of a cell value (used for the `Drop` column in
variant A, which stores the boolean returned by the Drop button). -/
def truthy : Value → Bool
  | Value.num n => n != 0
  | Value.str s => s != ""
  | Value.bool b => b
  | Value.na => true

/-- Numeric cell coercion `pd.to_numeric(-, errors="coerce").fillna(0)`: numbers
stay, numeric strings parse, everything else (including NaN) becomes 0. -/
def coerceNumeric : Value → Int
  | Value.num n => n
  | Value.str s => (s.toInt?).getD 0
  | Value.bool b => if b then 1 else 0
  | Value.na => 0

/-- Positional single-row update (`df.at[i, col] = v` on a default
range index): apply `f` to the row at position `i`, no-op out of range. -/
def updateAt (f : Row → Row) : List Row → Nat → List Row
  | [], _ => []
  | r :: rs, 0 => f r :: rs
  | r :: rs, n + 1 => r :: updateAt f rs n

theorem updateAt_length (f : Row → Row) (l : List Row) (i : Nat) :
    (updateAt f l i).length = l.length := by
  induction l generalizing i with
  | nil => rfl
  | cons r rs ih =>
    cases i with
    | zero => rfl
    | succ n => simp [updateAt, ih]

theorem getD_updateAt_self (f : Row → Row) (l : List Row) (i : Nat)
    (h : i < l.length) (d : Row) :
    (updateAt f l i).getD i d = f (l.getD i d) := by
  induction l generalizing i with
  | nil => simp at h
  | cons r rs ih =>
    cases i with
    | zero => rfl
    | succ n =>
      simp only [updateAt, List.getD_cons_succ]
      exact ih n (by simpa using h)

theorem getD_updateAt_ne (f : Row → Row) (l : List Row) (i j : Nat)
    (h : j ≠ i) (d : Row) :
    (updateAt f l i).getD j d = l.getD j d := by
  induction l generalizing i j with
  | nil => rfl
  | cons r rs ih =>
    cases i with
    | zero =>
      cases j with
      | zero => exact absurd rfl h
      | succ m => rfl
    | succ n =>
      cases j with
      | zero => rfl
      | succ m =>
        simp only [updateAt, List.getD_cons_succ]
        exact ih n m (fun hmn => h (by simp [hmn]))

/-- The field writes of a save/drop submission: the three selected
fields, `Label_Flag = 1` and the `Drop` string.  Variant A's save
handler performs exactly these writes with `dropFlag = false`
(`apl.py` lines 74-78); variant B's handler performs them for both
buttons (`app1.py` lines 157-161). -/
def submitRow (t s sd : String) (dropFlag : Bool) (r : Row) : Row :=
  { r with
      ptype := Value.str t,
      psize := Value.str s,
      side := Value.str sd,
      labelFlag := Value.num 1,
      drop := Value.str (if dropFlag then "True" else "False") }

/-- The field writes of variant A's Drop button (`apl.py` lines
64-65): `Label_Flag = 1` and `Drop = drop_checkbox`, the Python
boolean `True` returned by `st.button` — not a string. -/
def dropRowA (r : Row) : Row :=
  { r with labelFlag := Value.num 1, drop := Value.bool true }

/-! ## Variant A (`apl.py`): raw index cursor, local CSV store -/

/-- Session state of variant A: the in-memory table and
`st.session_state.current_index`. -/
structure StateA where
  df : List Row
  currentIndex : Nat
deriving DecidableEq, Repr

/-- One bounded unfolding of the skip-labeled while loop; `fuel`
bounds the remaining iterations.  Every iteration that continues
increments `i`, so `df.length - i` iterations always suffice, and
`scanForward` below instantiates the fuel that way, making it satisfy
the exact loop equation (`scanForward_eq`). -/
def scanGo (df : List Row) : Nat → Nat → Nat
  | 0, i => i
  | fuel + 1, i =>
    if h : i < df.length then
      if (df.get ⟨i, h⟩).labelFlag = Value.num 1 then scanGo df fuel (i + 1) else i
    else i

/-- The skip-labeled loop (`apl.py` lines 25-30):
`while current_index < len(df) and df.iloc[current_index].Label_Flag == 1:
current_index += 1`.  Returns the final value of `current_index`. -/
def scanForward (df : List Row) (i : Nat) : Nat :=
  scanGo df (df.length - i) i

/-- Unfolding lemma: `scanForward` satisfies the while loop's step equation: test the
bound, test the flag, continue or stop. -/
theorem scanForward_eq (df : List Row) (i : Nat) :
    scanForward df i =
      if h : i < df.length then
        if (df.get ⟨i, h⟩).labelFlag = Value.num 1 then scanForward df (i + 1) else i
      else i := by
  unfold scanForward
  by_cases h : i < df.length
  · have hk : df.length - i = (df.length - (i + 1)) + 1 := by omega
    rw [hk]
    simp [scanGo, h]
  · have hk : df.length - i = 0 := by omega
    rw [hk]
    simp [scanGo, h]

/-- The whole-run effect of the scan loop on the session state. -/
def scanA (st : StateA) : StateA :=
  { st with currentIndex := scanForward st.df st.currentIndex }

/-- The `all images labeled` completion check (`apl.py` line 33):
`current_index >= len(df)`. -/
def allLabeledSignal (df : List Row) (i : Nat) : Bool :=
  df.length ≤ i

/-- Previous button (`apl.py` line 89): decrement only when
`current_index > 0`. -/
def navPrevA (st : StateA) : StateA :=
  if 0 < st.currentIndex then { st with currentIndex := st.currentIndex - 1 } else st

/-- Next button (`apl.py` line 91): increment only when
`current_index < len(df) - 1` (Python integer arithmetic, hence the
`+ 1` form on naturals). -/
def navNextA (st : StateA) : StateA :=
  if st.currentIndex + 1 < st.df.length then { st with currentIndex := st.currentIndex + 1 } else st

/-- Drop handler of variant A (`apl.py` lines 63-70): writes
`Label_Flag = 1` and `Drop = drop_checkbox` — the Python boolean
`True`, not a string — then attempts `to_csv`.  `ioOk` tells whether
the write succeeded; on failure the store keeps its old content and
the in-memory mutation is kept. -/
def dropA (st : StateA) (store : List Row) (ioOk : Bool) : StateA × List Row :=
  let df' := updateAt dropRowA st.df st.currentIndex
  ({ st with df := df' }, if ioOk then df' else store)

/-- Save handler of variant A (`apl.py` lines 72-85): writes the three
selected fields, `Label_Flag = 1` and `Drop = "False"`, then attempts
`to_csv`. -/
def saveA (st : StateA) (store : List Row) (t s sd : String) (ioOk : Bool) :
    StateA × List Row :=
  let df' := updateAt (submitRow t s sd false) st.df st.currentIndex
  ({ st with df := df' }, if ioOk then df' else store)

/-! ## Variant B (`app1.py`): materialized unlabeled list, remote store -/

/-- Session state of variant B: the in-memory table,
`st.session_state.unlabeled_indices` and `st.session_state.current_pos`
(an `Int`, since the empty-list sentinel is `-1`). -/
structure StateB where
  df : List Row
  unlabeled : List Nat
  pos : Int
deriving DecidableEq, Repr

/-- In-place numeric coercion of the `Label_Flag` column
(`app1.py` lines 39 and 139):
`df["Label_Flag"] = pd.to_numeric(df["Label_Flag"], errors="coerce").fillna(0)`. -/
def coerceCol (df : List Row) : List Row :=
  df.map (fun r => { r with labelFlag := Value.num (coerceNumeric r.labelFlag) })

/-- The unlabeled-index computation `df.index[df["Label_Flag"] == 0].tolist()` (`app1.py` lines 40 and
140): the positions whose (already coerced) `Label_Flag` equals 0, in
row order. -/
def computeUnlabeled (df : List Row) : List Nat :=
  (List.range df.length).filter
    (fun i => decide (coerceNumeric ((df.getD i default).labelFlag) = 0))

/-- The recompute step shared by session-state setup (`app1.py` lines
38-41) and `update_system` (lines 139-141): coerce the flag column,
rebuild the unlabeled list, and set the position to 0 or the sentinel
`-1`. -/
def recompute (df : List Row) : StateB :=
  let df' := coerceCol df
  let ul := computeUnlabeled df'
  { df := df', unlabeled := ul, pos := if ul = [] then -1 else 0 }

/-- Session-state setup at session start (`app1.py` lines 38-41). -/
def initB (df : List Row) : StateB :=
  recompute df

/-- The CSV position the cursor currently refers to:
`unlabeled_indices[current_pos]` (`app1.py` line 54). -/
def currentIdxB (st : StateB) : Nat :=
  st.unlabeled.getD st.pos.toNat 0

/-- The pre-save identity check `verify_before_save` (`app1.py` lines 118-124): the row at
`original_idx` must still carry the displayed `Image_Name`; an
out-of-range access is caught and reported as a mismatch. -/
def verify_before_save (df : List Row) (idx : Nat) (name : String) : Bool :=
  if h : idx < df.length then (df.get ⟨idx, h⟩).imageName == name else false

/-- The commit step `update_system` (`app1.py` lines 126-146) given the already mutated
table `df`, the current session list/position and the store content.
On success (`pushOk = true`): the store now holds `df`, the table is
reloaded (round-tripping through the store is the identity on rows)
and the session state is fully recomputed.  On failure the exception
is caught: nothing is rolled back and the list/position are left
untouched. -/
def update_system (df : List Row) (ul : List Nat) (pos : Int)
    (store : List Row) (pushOk : Bool) : StateB × List Row × Bool :=
  if pushOk then
    (recompute df, df, true)
  else
    ({ df := df, unlabeled := ul, pos := pos }, store, false)

/-- The save/drop handler of variant B (`app1.py` lines 148-165).
`dropFlag` distinguishes the Drop button from Save; `displayedName` is
the `Image_Name` captured when the row was rendered.  On a mismatch
the edit is discarded: the table is reloaded from the store and the
script reruns (`st.rerun()` aborts the handler, so the field writes
below the mismatch branch never execute).  Otherwise the five fields
are written — note that type/size/side are written on Drop too — and
`update_system` runs. -/
def handleSubmit (st : StateB) (store : List Row) (t s sd : String)
    (dropFlag : Bool) (displayedName : String) (pushOk : Bool) :
    StateB × List Row :=
  let idx := currentIdxB st
  if verify_before_save st.df idx displayedName then
    let df' := updateAt (submitRow t s sd dropFlag) st.df idx
    let res := update_system df' st.unlabeled st.pos store pushOk
    (res.1, res.2.1)
  else
    ({ st with df := store }, store)

/-- Previous button (`app1.py` line 171): decrement only when
`current_pos > 0`. -/
def navPrevB (st : StateB) : StateB :=
  if 0 < st.pos then { st with pos := st.pos - 1 } else st

/-- Next button (`app1.py` line 175): increment only when
`current_pos < len(unlabeled_indices) - 1`. -/
def navNextB (st : StateB) : StateB :=
  if st.pos < (st.unlabeled.length : Int) - 1 then { st with pos := st.pos + 1 } else st

/-! ## Cursor invariants (spec section 3) -/

/-- Variant A cursor invariant: the index refers to an existing row or
sits at the `all labeled` sentinel `len(df)`. -/
def cursorInvA (st : StateA) : Prop :=
  st.currentIndex ≤ st.df.length

/-- Variant B cursor invariant: the position is the sentinel `-1` or a
valid position into the unlabeled list, and every entry of the list is
an existing, currently-unlabeled row — so the row the cursor refers to
is existing and unlabeled. -/
def cursorInvB (st : StateB) : Prop :=
  (st.pos = -1 ∨ (0 ≤ st.pos ∧ st.pos < (st.unlabeled.length : Int))) ∧
  ∀ i ∈ st.unlabeled,
    i < st.df.length ∧ coerceNumeric ((st.df.getD i default).labelFlag) = 0

instance (st : StateA) : Decidable (cursorInvA st) := by
  unfold cursorInvA; infer_instance

instance (st : StateB) : Decidable (cursorInvB st) := by
  unfold cursorInvB; infer_instance

/-! ## Helper lemmas -/

theorem getD_eq_get (l : List Row) (n : Nat) (h : n < l.length) (d : Row) :
    l.getD n d = l.get ⟨n, h⟩ := by
  rw [List.getD_eq_getElem l d h, List.get_eq_getElem]

theorem coerceCol_length (df : List Row) : (coerceCol df).length = df.length := by
  simp [coerceCol]

theorem coerceCol_getD_lt (df : List Row) (j : Nat) (h : j < df.length) :
    (coerceCol df).getD j default =
      { df.getD j default with
          labelFlag := Value.num (coerceNumeric (df.getD j default).labelFlag) } := by
  induction df generalizing j with
  | nil => simp at h
  | cons r rs ih =>
    cases j with
    | zero => rfl
    | succ n =>
      simp only [coerceCol, List.map_cons, List.getD_cons_succ]
      exact ih n (by simpa using h)

theorem coerceCol_getD_drop (df : List Row) (j : Nat) :
    ((coerceCol df).getD j default).drop = ((df.getD j default)).drop := by
  by_cases h : j < df.length
  · rw [coerceCol_getD_lt df j h]
  · rw [List.getD_eq_default _ _ (by omega : df.length ≤ j),
        List.getD_eq_default _ _ (by simpa [coerceCol_length] using (by omega : df.length ≤ j))]

theorem mem_computeUnlabeled (df : List Row) (i : Nat) :
    i ∈ computeUnlabeled df ↔
      i < df.length ∧ coerceNumeric ((df.getD i default).labelFlag) = 0 := by
  simp [computeUnlabeled, List.mem_filter, List.mem_range]

theorem computeUnlabeled_pairwise (df : List Row) :
    (computeUnlabeled df).Pairwise (· < ·) :=
  (List.pairwise_lt_range df.length).sublist (List.filter_sublist _)

theorem computeUnlabeled_coerceCol (df : List Row) :
    computeUnlabeled (coerceCol df) = computeUnlabeled df := by
  unfold computeUnlabeled
  rw [coerceCol_length]
  apply List.filter_congr
  intro i hi
  rw [List.mem_range] at hi
  rw [coerceCol_getD_lt df i hi]
  simp [coerceNumeric]

theorem recompute_df (df : List Row) : (recompute df).df = coerceCol df := rfl

theorem recompute_unlabeled (df : List Row) :
    (recompute df).unlabeled = computeUnlabeled df := by
  simp [recompute, computeUnlabeled_coerceCol]

theorem recompute_pos (df : List Row) :
    (recompute df).pos = if (recompute df).unlabeled = [] then -1 else 0 := rfl

theorem scanGo_ge (df : List Row) (fuel i : Nat) : i ≤ scanGo df fuel i := by
  induction fuel generalizing i with
  | zero => exact Nat.le_refl i
  | succ fuel ih =>
    rw [scanGo]
    by_cases h1 : i < df.length
    · rw [dif_pos h1]
      by_cases h2 : (df.get ⟨i, h1⟩).labelFlag = Value.num 1
      · rw [if_pos h2]
        exact Nat.le_of_succ_le (ih (i + 1))
      · rw [if_neg h2]
    · rw [dif_neg h1]

theorem scanGo_le (df : List Row) (fuel i : Nat) (h : i ≤ df.length) :
    scanGo df fuel i ≤ df.length := by
  induction fuel generalizing i with
  | zero => exact h
  | succ fuel ih =>
    rw [scanGo]
    by_cases h1 : i < df.length
    · rw [dif_pos h1]
      by_cases h2 : (df.get ⟨i, h1⟩).labelFlag = Value.num 1
      · rw [if_pos h2]
        exact ih (i + 1) h1
      · rw [if_neg h2]
        exact h
    · rw [dif_neg h1]
      exact h

theorem scanGo_stop (df : List Row) (fuel i : Nat) (hfuel : df.length ≤ fuel + i)
    (h : scanGo df fuel i < df.length) :
    (df.getD (scanGo df fuel i) default).labelFlag ≠ Value.num 1 := by
  induction fuel generalizing i with
  | zero => simp only [scanGo] at h; omega
  | succ fuel ih =>
    rw [scanGo] at h ⊢
    by_cases h1 : i < df.length
    · rw [dif_pos h1] at h ⊢
      by_cases h2 : (df.get ⟨i, h1⟩).labelFlag = Value.num 1
      · rw [if_pos h2] at h ⊢
        exact ih (i + 1) (by omega) h
      · rw [if_neg h2] at h ⊢
        rw [getD_eq_get df i h1]
        exact h2
    · rw [dif_neg h1] at h
      exact absurd h h1

theorem scanGo_skipped (df : List Row) (fuel i j : Nat)
    (hij : i ≤ j) (hj : j < scanGo df fuel i) :
    (df.getD j default).labelFlag = Value.num 1 := by
  induction fuel generalizing i with
  | zero => exact absurd hj (by simp [scanGo]; omega)
  | succ fuel ih =>
    rw [scanGo] at hj
    by_cases h1 : i < df.length
    · rw [dif_pos h1] at hj
      by_cases h2 : (df.get ⟨i, h1⟩).labelFlag = Value.num 1
      · rw [if_pos h2] at hj
        rcases Nat.eq_or_lt_of_le hij with heq | hlt
        · subst heq
          rw [getD_eq_get df i h1]
          exact h2
        · exact ih (i + 1) hlt hj
      · rw [if_neg h2] at hj
        omega
    · rw [dif_neg h1] at hj
      omega

/-- The scan loop never moves the index backwards. -/
theorem scanForward_ge (df : List Row) (i : Nat) : i ≤ scanForward df i :=
  scanGo_ge df _ i

/-- Starting inside the table, the scan loop stays within `[0, length]`. -/
theorem scanForward_le (df : List Row) (i : Nat) (h : i ≤ df.length) :
    scanForward df i ≤ df.length :=
  scanGo_le df _ i h

/-- If the scan stops strictly inside the table, the row it stops on
does not have `Label_Flag == 1`. -/
theorem scanForward_stop (df : List Row) (i : Nat)
    (h : scanForward df i < df.length) :
    (df.getD (scanForward df i) default).labelFlag ≠ Value.num 1 :=
  scanGo_stop df _ i (by omega) h

/-- Every row the scan skipped over had `Label_Flag == 1`. -/
theorem scanForward_skipped (df : List Row) (i : Nat) (j : Nat)
    (hij : i ≤ j) (hj : j < scanForward df i) :
    (df.getD j default).labelFlag = Value.num 1 :=
  scanGo_skipped df _ i j hij hj

theorem updateAt_of_le (f : Row → Row) (l : List Row) (i : Nat)
    (h : l.length ≤ i) : updateAt f l i = l := by
  induction l generalizing i with
  | nil => rfl
  | cons r rs ih =>
    cases i with
    | zero => simp at h
    | succ n =>
      simp only [updateAt, List.cons.injEq, true_and]
      exact ih n (by simpa using h)

/-! ## Sample data for concrete witnesses and counterexamples -/

/-- A sample unlabeled row. -/
def rowU : Row :=
  { colIndex := Value.num 0, imageName := "img0", labelFlag := Value.num 0,
    ptype := Value.str "Simple", psize := Value.str "Small",
    side := Value.str "Right", drop := Value.str "False", other := Value.str "x" }

/-- A sample already-labeled row. -/
def rowL : Row :=
  { rowU with colIndex := Value.num 1, imageName := "img1", labelFlag := Value.num 1 }

/-! ## Statement abbreviations -/

/-- The shape of the row the save/drop handlers write: the three
selected fields, `Label_Flag = 1`, the `Drop` string for the pressed
button, and every other column of the row untouched. -/
def writesSaveFields (oldRow newRow : Row) (t s sd : String) (dropFlag : Bool) : Prop :=
  newRow.ptype = Value.str t ∧ newRow.psize = Value.str s ∧
  newRow.side = Value.str sd ∧ newRow.labelFlag = Value.num 1 ∧
  newRow.drop = Value.str (if dropFlag then "True" else "False") ∧
  newRow.colIndex = oldRow.colIndex ∧ newRow.imageName = oldRow.imageName ∧
  newRow.other = oldRow.other

/-- After a successful variant B save/drop of row `idx`: the row is
labeled, it left the unlabeled list, and the position was reset to 0
or the sentinel (not to its previous relative place). -/
def rowRetired (st : StateB) (idx : Nat) : Prop :=
  (st.df.getD idx default).labelFlag = Value.num 1 ∧
  idx ∉ st.unlabeled ∧
  st.pos = (if st.unlabeled = [] then -1 else 0)

/-- Reduction of the variant B handler when the identity check
passes: the row is written, then either the push succeeds and the
session state is recomputed, or it fails and only the in-memory table
keeps the mutation. -/
theorem handleSubmit_verified (st : StateB) (store : List Row) (t s sd : String)
    (dropFlag : Bool) (name : String) (pushOk : Bool)
    (hver : verify_before_save st.df (currentIdxB st) name = true) :
    handleSubmit st store t s sd dropFlag name pushOk =
      if pushOk then
        (recompute (updateAt (submitRow t s sd dropFlag) st.df (currentIdxB st)),
         updateAt (submitRow t s sd dropFlag) st.df (currentIdxB st))
      else
        (⟨updateAt (submitRow t s sd dropFlag) st.df (currentIdxB st),
          st.unlabeled, st.pos⟩, store) := by
  cases pushOk <;> simp [handleSubmit, update_system, hver]

/-- Reduction of the variant B handler when the identity check fails:
the edit is discarded, the table is reloaded from the store. -/
theorem handleSubmit_mismatch (st : StateB) (store : List Row) (t s sd : String)
    (dropFlag : Bool) (name : String) (pushOk : Bool)
    (hver : verify_before_save st.df (currentIdxB st) name = false) :
    handleSubmit st store t s sd dropFlag name pushOk =
      ({ st with df := store }, store) := by
  simp [handleSubmit, hver]

/-! ## Claims -/

/-- C1: for every row and every successful save (variant A's Save
button, variant B's Save submission passing the identity check with a
successful push), exactly the five fields are written on that row:
type/size/side get the user-selected values, `Label_Flag` becomes 1
and `Drop` becomes the string `"False"`; the row's other columns
(`Index`, `Image_Name` and the representative extra column) are
unchanged — and in variant A all other rows are unchanged too. -/
theorem C1_save_writes_exact_fields
    (stA : StateA) (storeA : List Row) (t s sd : String) (ok : Bool)
    (hA : stA.currentIndex < stA.df.length)
    (stB : StateB) (storeB : List Row) (name : String)
    (hidx : currentIdxB stB < stB.df.length)
    (hver : verify_before_save stB.df (currentIdxB stB) name = true) :
    writesSaveFields (stA.df.getD stA.currentIndex default)
      ((saveA stA storeA t s sd ok).1.df.getD stA.currentIndex default)
      t s sd false ∧
    (∀ j, j ≠ stA.currentIndex →
      (saveA stA storeA t s sd ok).1.df.getD j default
        = stA.df.getD j default) ∧
    writesSaveFields (stB.df.getD (currentIdxB stB) default)
      ((handleSubmit stB storeB t s sd false name true).1.df.getD
        (currentIdxB stB) default)
      t s sd false := by
  refine ⟨?_, ?_, ?_⟩
  · show writesSaveFields _
      ((updateAt (submitRow t s sd false) stA.df stA.currentIndex).getD
        stA.currentIndex default) _ _ _ _
    rw [getD_updateAt_self _ _ _ hA]
    simp [writesSaveFields, submitRow]
  · intro j hj
    exact getD_updateAt_ne _ _ _ _ hj _
  · rw [handleSubmit_verified _ _ _ _ _ _ _ _ hver, if_pos rfl]
    have hlen : currentIdxB stB <
        (updateAt (submitRow t s sd false) stB.df (currentIdxB stB)).length := by
      rw [updateAt_length]
      exact hidx
    show writesSaveFields _
      ((coerceCol (updateAt (submitRow t s sd false) stB.df (currentIdxB stB))).getD
        (currentIdxB stB) default) _ _ _ _
    rw [coerceCol_getD_lt _ _ hlen, getD_updateAt_self _ _ _ hidx]
    simp [writesSaveFields, submitRow, coerceNumeric]

/-- C1 witness: saving (Tension, Large, Left) on the single unlabeled
row writes exactly the five fields in both variants and leaves row 1
of variant A's two-row table untouched. -/
theorem C1_witness :
    writesSaveFields rowU
      ((saveA ⟨[rowU, rowL], 0⟩ [] "Tension" "Large" "Left" true).1.df.getD 0 default)
      "Tension" "Large" "Left" false ∧
    (saveA ⟨[rowU, rowL], 0⟩ [] "Tension" "Large" "Left" true).1.df.getD 1 default
      = rowL ∧
    writesSaveFields rowU
      ((handleSubmit ⟨[rowU], [0], 0⟩ [] "Tension" "Large" "Left" false "img0" true).1.df.getD
        0 default)
      "Tension" "Large" "Left" false := by
  have h := C1_save_writes_exact_fields ⟨[rowU, rowL], 0⟩ [] "Tension" "Large" "Left"
    true (by decide) ⟨[rowU], [0], 0⟩ [] "img0" (by decide) (by decide)
  exact ⟨h.1, h.2.1 1 (by decide), h.2.2⟩

/-- C2 counterexample: the claim `the drop operation never mutates the
row's type/size/side fields (in both variants)` is false.  In variant
B both buttons run the same field writes, so dropping row 0 of a
one-row table while the form holds `Tension` overwrites
`Pneumothorax_Type` from `"Simple"` to `"Tension"`. -/
theorem C2_counterexample :
    rowU.ptype = Value.str "Simple" ∧
    ((handleSubmit ⟨[rowU], [0], 0⟩ [rowU] "Tension" "Large" "Left" true
        "img0" true).1.df.getD 0 default).ptype = Value.str "Tension" := by
  decide

/-- C2 (amended): dropping sets `Label_Flag` to 1 and `Drop` to a
truthy value in both variants, and variant A's drop never mutates any
row's type/size/side; variant B's drop, however, also writes the
form-selected type/size/side values into the row (its `Drop` value is
the truthy string `"True"`). -/
theorem C2_amended
    (stA : StateA) (storeA : List Row) (ok : Bool)
    (hA : stA.currentIndex < stA.df.length)
    (stB : StateB) (storeB : List Row) (t s sd : String) (name : String)
    (hidx : currentIdxB stB < stB.df.length)
    (hver : verify_before_save stB.df (currentIdxB stB) name = true) :
    (∀ j,
      ((dropA stA storeA ok).1.df.getD j default).ptype
        = (stA.df.getD j default).ptype ∧
      ((dropA stA storeA ok).1.df.getD j default).psize
        = (stA.df.getD j default).psize ∧
      ((dropA stA storeA ok).1.df.getD j default).side
        = (stA.df.getD j default).side) ∧
    ((dropA stA storeA ok).1.df.getD stA.currentIndex default).labelFlag
      = Value.num 1 ∧
    truthy ((dropA stA storeA ok).1.df.getD stA.currentIndex default).drop
      = true ∧
    truthy ((handleSubmit stB storeB t s sd true name true).1.df.getD
      (currentIdxB stB) default).drop = true ∧
    writesSaveFields (stB.df.getD (currentIdxB stB) default)
      ((handleSubmit stB storeB t s sd true name true).1.df.getD
        (currentIdxB stB) default)
      t s sd true := by
  have hlenB : currentIdxB stB <
      (updateAt (submitRow t s sd true) stB.df (currentIdxB stB)).length := by
    rw [updateAt_length]
    exact hidx
  simp only [dropA]
  rw [handleSubmit_verified _ _ _ _ _ _ _ _ hver, if_pos rfl]
  refine ⟨?_, ?_, ?_, ?_, ?_⟩
  · intro j
    by_cases hj : j = stA.currentIndex
    · subst hj
      rw [getD_updateAt_self _ _ _ hA]
      exact ⟨rfl, rfl, rfl⟩
    · rw [getD_updateAt_ne _ _ _ _ hj]
      exact ⟨rfl, rfl, rfl⟩
  · rw [getD_updateAt_self _ _ _ hA]
    rfl
  · rw [getD_updateAt_self _ _ _ hA]
    rfl
  · show truthy ((coerceCol _).getD _ _).drop = true
    rw [coerceCol_getD_lt _ _ hlenB, getD_updateAt_self _ _ _ hidx]
    rfl
  · show writesSaveFields _ ((coerceCol _).getD _ _) _ _ _ _
    rw [coerceCol_getD_lt _ _ hlenB, getD_updateAt_self _ _ _ hidx]
    simp [writesSaveFields, submitRow, coerceNumeric]

/-- C2 witness: dropping the single unlabeled row in both variants:
variant A keeps `ptype` and sets flag/drop; variant B's drop passes
the check and writes the form values together with `Drop = "True"`. -/
theorem C2_witness :
    ((dropA ⟨[rowU], 0⟩ [] true).1.df.getD 0 default).ptype = rowU.ptype ∧
    ((dropA ⟨[rowU], 0⟩ [] true).1.df.getD 0 default).labelFlag = Value.num 1 ∧
    truthy ((dropA ⟨[rowU], 0⟩ [] true).1.df.getD 0 default).drop = true ∧
    writesSaveFields rowU
      ((handleSubmit ⟨[rowU], [0], 0⟩ [] "Tension" "Large" "Left" true
        "img0" true).1.df.getD 0 default)
      "Tension" "Large" "Left" true := by
  have h := C2_amended ⟨[rowU], 0⟩ [] true (by decide) ⟨[rowU], [0], 0⟩ []
    "Tension" "Large" "Left" "img0" (by decide) (by decide)
  exact ⟨(h.1 0).1, h.2.1, h.2.2.1, h.2.2.2.2⟩

/-- C3: whenever variant B computes its unlabeled list (session start
and the post-save recompute both run `recompute`, and `initB` is that
very computation), the list holds exactly the indices of rows whose
`Label_Flag`, coerced numerically with missing/invalid treated as 0,
equals 0, in the dataset's original row order (strictly increasing
indices), and the position is 0 if the list is non-empty and the
sentinel -1 if it is empty. -/
theorem C3_unlabeled_list (df : List Row) :
    (∀ i, i ∈ (recompute df).unlabeled ↔
      (i < df.length ∧ coerceNumeric ((df.getD i default).labelFlag) = 0)) ∧
    (recompute df).unlabeled.Pairwise (· < ·) ∧
    (recompute df).pos = (if (recompute df).unlabeled = [] then -1 else 0) ∧
    initB df = recompute df := by
  refine ⟨?_, ?_, recompute_pos df, rfl⟩
  · intro i
    rw [recompute_unlabeled, mem_computeUnlabeled]
  · rw [recompute_unlabeled]
    exact computeUnlabeled_pairwise df

/-- C4: variant A's forward scan never stops on a row whose
`Label_Flag` equals 1: starting anywhere inside the table it stops at
the first row at or after the start with `Label_Flag != 1` (all
skipped rows had flag 1, the stop row does not), and when every
remaining row has flag 1 it ends at the table length and raises the
`all images labeled` signal. -/
theorem C4_scan_never_stops_on_labeled (df : List Row) (start : Nat)
    (h : start ≤ df.length) :
    start ≤ scanForward df start ∧
    scanForward df start ≤ df.length ∧
    (∀ j, start ≤ j → j < scanForward df start →
      (df.getD j default).labelFlag = Value.num 1) ∧
    (scanForward df start < df.length →
      (df.getD (scanForward df start) default).labelFlag ≠ Value.num 1) ∧
    ((∀ j, start ≤ j → j < df.length →
        (df.getD j default).labelFlag = Value.num 1) →
      scanForward df start = df.length ∧
      allLabeledSignal df (scanForward df start) = true) := by
  refine ⟨scanForward_ge df start, scanForward_le df start h,
          fun j hsj hj => scanForward_skipped df start j hsj hj,
          fun hlt => scanForward_stop df start hlt, ?_⟩
  intro hall
  have h1 : ¬ scanForward df start < df.length := fun hlt =>
    scanForward_stop df start hlt (hall _ (scanForward_ge df start) hlt)
  have h2 : scanForward df start = df.length := by
    have := scanForward_le df start h
    omega
  refine ⟨h2, ?_⟩
  simp [allLabeledSignal, h2]

/-- C4 witness: on `[labeled, unlabeled]` the scan skips row 0 and
stops on row 1; on `[labeled, labeled]` it ends at the length and
signals completion. -/
theorem C4_witness :
    (0 ≤ scanForward [rowL, rowU] 0 ∧
     scanForward [rowL, rowU] 0 ≤ [rowL, rowU].length ∧
     ([rowL, rowU].getD 0 default).labelFlag = Value.num 1 ∧
     ([rowL, rowU].getD (scanForward [rowL, rowU] 0) default).labelFlag
       ≠ Value.num 1) ∧
    (scanForward [rowL, rowL] 0 = [rowL, rowL].length ∧
     allLabeledSignal [rowL, rowL] (scanForward [rowL, rowL] 0) = true) := by
  have h1 := C4_scan_never_stops_on_labeled [rowL, rowU] 0 (by decide)
  have h2 := C4_scan_never_stops_on_labeled [rowL, rowL] 0 (by decide)
  exact ⟨⟨h1.1, h1.2.1, h1.2.2.1 0 (by decide) (by decide),
          h1.2.2.2.1 (by decide)⟩,
         h2.2.2.2.2 (by
           intro j h0 hj
           have hj2 : j < 2 := by simpa using hj
           interval_cases j <;> decide)⟩

/-- C7: Previous at position 0 is a no-op and Next at the last
position is a no-op, in both variants (variant A's last position is
`len(df) - 1`, variant B's is `len(unlabeled_indices) - 1`). -/
theorem C7_nav_noop (stA : StateA) (stB : StateB) :
    (stA.currentIndex = 0 → navPrevA stA = stA) ∧
    (stA.currentIndex = stA.df.length - 1 → navNextA stA = stA) ∧
    (stB.pos = 0 → navPrevB stB = stB) ∧
    (stB.pos = (stB.unlabeled.length : Int) - 1 → navNextB stB = stB) := by
  refine ⟨?_, ?_, ?_, ?_⟩
  · intro h
    unfold navPrevA
    rw [if_neg (by omega)]
  · intro h
    unfold navNextA
    rw [if_neg (by omega)]
  · intro h
    unfold navPrevB
    rw [if_neg (by omega)]
  · intro h
    unfold navNextB
    rw [if_neg (by omega)]

/-- C7 witness: a one-row dataset where position 0 is also the last
position; both buttons leave the state unchanged in both variants. -/
theorem C7_witness :
    navPrevA ⟨[rowU], 0⟩ = ⟨[rowU], 0⟩ ∧
    navNextA ⟨[rowU], 0⟩ = ⟨[rowU], 0⟩ ∧
    navPrevB ⟨[rowU], [0], 0⟩ = ⟨[rowU], [0], 0⟩ ∧
    navNextB ⟨[rowU], [0], 0⟩ = ⟨[rowU], [0], 0⟩ := by
  have h := C7_nav_noop ⟨[rowU], 0⟩ ⟨[rowU], [0], 0⟩
  exact ⟨h.1 (by decide), h.2.1 (by decide), h.2.2.1 (by decide),
         h.2.2.2 (by decide)⟩

/-- C5: after a successful save or drop in variant B (identity check
passed, push succeeded) the saved row's `Label_Flag` is 1, the
recomputed unlabeled list no longer contains it, and the position is
reset to 0 (or the sentinel -1 if the list emptied) instead of keeping
the previous relative position. -/
theorem C5_success_retires_row (st : StateB) (store : List Row)
    (t s sd : String) (dropFlag : Bool) (name : String)
    (hidx : currentIdxB st < st.df.length)
    (hver : verify_before_save st.df (currentIdxB st) name = true) :
    rowRetired (handleSubmit st store t s sd dropFlag name true).1
      (currentIdxB st) := by
  rw [handleSubmit_verified _ _ _ _ _ _ _ _ hver, if_pos rfl]
  have hlen : currentIdxB st <
      (updateAt (submitRow t s sd dropFlag) st.df (currentIdxB st)).length := by
    rw [updateAt_length]
    exact hidx
  have hflag : ((updateAt (submitRow t s sd dropFlag) st.df
      (currentIdxB st)).getD (currentIdxB st) default).labelFlag
      = Value.num 1 := by
    rw [getD_updateAt_self _ _ _ hidx]
    rfl
  refine ⟨?_, ?_, ?_⟩
  · show ((coerceCol _).getD _ _).labelFlag = _
    rw [coerceCol_getD_lt _ _ hlen]
    show Value.num (coerceNumeric ((updateAt (submitRow t s sd dropFlag)
      st.df (currentIdxB st)).getD (currentIdxB st) default).labelFlag)
      = Value.num 1
    rw [hflag]
    rfl
  · rw [recompute_unlabeled]
    intro hmem
    rw [mem_computeUnlabeled] at hmem
    rw [hflag] at hmem
    simp [coerceNumeric] at hmem
  · exact recompute_pos _

/-- C5 witness: saving the only unlabeled row labels it, empties the
unlabeled list and sets the sentinel position. -/
theorem C5_witness :
    rowRetired (handleSubmit ⟨[rowU], [0], 0⟩ [] "Simple" "Small" "Right"
      false "img0" true).1 0 :=
  C5_success_retires_row ⟨[rowU], [0], 0⟩ [] "Simple" "Small" "Right"
    false "img0" (by decide) (by decide)

/-- C8: in variant B, when the pre-save check reports that the row's
`Image_Name` no longer matches the displayed one, the save is aborted:
the pending field values are not applied (the resulting table is
exactly the reloaded store content), the store is untouched, and the
session's list and position are carried into the restarted review
flow unchanged. -/
theorem C8_mismatch_discards_edit (st : StateB) (store : List Row)
    (t s sd : String) (dropFlag : Bool) (name : String) (pushOk : Bool)
    (hver : verify_before_save st.df (currentIdxB st) name = false) :
    (handleSubmit st store t s sd dropFlag name pushOk).1.df = store ∧
    (handleSubmit st store t s sd dropFlag name pushOk).2 = store ∧
    (handleSubmit st store t s sd dropFlag name pushOk).1.unlabeled
      = st.unlabeled ∧
    (handleSubmit st store t s sd dropFlag name pushOk).1.pos = st.pos := by
  rw [handleSubmit_mismatch _ _ _ _ _ _ _ _ hver]
  exact ⟨rfl, rfl, rfl, rfl⟩

/-- C8 witness: the displayed name `"other"` no longer matches row 0,
so the edit is dropped and the reloaded store `[rowL]` becomes the
table. -/
theorem C8_witness :
    (handleSubmit ⟨[rowU], [0], 0⟩ [rowL] "Tension" "Large" "Left"
      false "other" true).1.df = [rowL] ∧
    (handleSubmit ⟨[rowU], [0], 0⟩ [rowL] "Tension" "Large" "Left"
      false "other" true).2 = [rowL] ∧
    (handleSubmit ⟨[rowU], [0], 0⟩ [rowL] "Tension" "Large" "Left"
      false "other" true).1.unlabeled = [0] ∧
    (handleSubmit ⟨[rowU], [0], 0⟩ [rowL] "Tension" "Large" "Left"
      false "other" true).1.pos = 0 :=
  C8_mismatch_discards_edit ⟨[rowU], [0], 0⟩ [rowL] "Tension" "Large" "Left"
    false "other" true (by decide)

/-- C9: if the store write fails during a save or drop, the in-memory
row mutation is retained, not reverted: the row still carries the new
field values while the store keeps its old content (both variants; in
variant B the stale list and position are also kept). -/
theorem C9_io_failure_keeps_mutation
    (stA : StateA) (storeA : List Row) (t s sd : String)
    (hA : stA.currentIndex < stA.df.length)
    (stB : StateB) (storeB : List Row) (dropFlag : Bool) (name : String)
    (hidx : currentIdxB stB < stB.df.length)
    (hver : verify_before_save stB.df (currentIdxB stB) name = true) :
    (saveA stA storeA t s sd false).2 = storeA ∧
    writesSaveFields (stA.df.getD stA.currentIndex default)
      ((saveA stA storeA t s sd false).1.df.getD stA.currentIndex default)
      t s sd false ∧
    (dropA stA storeA false).2 = storeA ∧
    ((dropA stA storeA false).1.df.getD stA.currentIndex default).labelFlag
      = Value.num 1 ∧
    ((dropA stA storeA false).1.df.getD stA.currentIndex default).drop
      = Value.bool true ∧
    (handleSubmit stB storeB t s sd dropFlag name false).2 = storeB ∧
    writesSaveFields (stB.df.getD (currentIdxB stB) default)
      ((handleSubmit stB storeB t s sd dropFlag name false).1.df.getD
        (currentIdxB stB) default)
      t s sd dropFlag ∧
    (handleSubmit stB storeB t s sd dropFlag name false).1.unlabeled
      = stB.unlabeled ∧
    (handleSubmit stB storeB t s sd dropFlag name false).1.pos = stB.pos := by
  rw [handleSubmit_verified _ _ _ _ _ _ _ _ hver]
  refine ⟨rfl, ?_, rfl, ?_, ?_, rfl, ?_, rfl, rfl⟩
  · show writesSaveFields _
      ((updateAt (submitRow t s sd false) stA.df stA.currentIndex).getD
        stA.currentIndex default) _ _ _ _
    rw [getD_updateAt_self _ _ _ hA]
    simp [writesSaveFields, submitRow]
  · show ((updateAt dropRowA stA.df stA.currentIndex).getD
      stA.currentIndex default).labelFlag = _
    rw [getD_updateAt_self _ _ _ hA]
    rfl
  · show ((updateAt dropRowA stA.df stA.currentIndex).getD
      stA.currentIndex default).drop = _
    rw [getD_updateAt_self _ _ _ hA]
    rfl
  · show writesSaveFields _
      ((updateAt (submitRow t s sd dropFlag) stB.df (currentIdxB stB)).getD
        (currentIdxB stB) default) _ _ _ _
    rw [getD_updateAt_self _ _ _ hidx]
    simp [writesSaveFields, submitRow]

/-- C9 witness: a failed push on the one-row table: the store keeps
`[rowU]` while the in-memory row carries the new values. -/
theorem C9_witness :
    (saveA ⟨[rowU], 0⟩ [rowU] "Tension" "Large" "Left" false).2 = [rowU] ∧
    writesSaveFields rowU
      ((saveA ⟨[rowU], 0⟩ [rowU] "Tension" "Large" "Left" false).1.df.getD
        0 default)
      "Tension" "Large" "Left" false ∧
    (handleSubmit ⟨[rowU], [0], 0⟩ [rowU] "Tension" "Large" "Left" false
      "img0" false).2 = [rowU] ∧
    writesSaveFields rowU
      ((handleSubmit ⟨[rowU], [0], 0⟩ [rowU] "Tension" "Large" "Left" false
        "img0" false).1.df.getD 0 default)
      "Tension" "Large" "Left" false := by
  have h := C9_io_failure_keeps_mutation ⟨[rowU], 0⟩ [rowU] "Tension" "Large"
    "Left" (by decide) ⟨[rowU], [0], 0⟩ [rowU] false "img0" (by decide)
    (by decide)
  exact ⟨h.1, h.2.1, h.2.2.2.2.2.1, h.2.2.2.2.2.2.1⟩

/-- C10 counterexample: the claim `every value the program writes into
Drop is one of the strings "True"/"False", in both variants` is false:
variant A's Drop button writes the Python boolean `True` (the value of
`drop_checkbox`), which is neither of the two strings. -/
theorem C10_counterexample :
    ((dropA ⟨[rowU], 0⟩ [rowU] true).1.df.getD 0 default).drop
      = Value.bool true ∧
    Value.bool true ≠ Value.str "True" ∧
    Value.bool true ≠ Value.str "False" := by
  decide

/-- C10 (amended): every `Drop` value a save writes is the string
`"False"` (variant A) and every `Drop` value variant B writes is one
of the strings `"True"`/`"False"`; variant A's drop instead writes the
boolean `True` — truthy, but outside the declared string
enumeration.  Each row's `Drop` is otherwise left at its old value. -/
theorem C10_amended
    (stA : StateA) (storeA : List Row) (t s sd : String) (ok : Bool)
    (stB : StateB) (storeB : List Row) (dropFlag pushOk : Bool) (name : String)
    (hver : verify_before_save stB.df (currentIdxB stB) name = true) :
    (∀ j, ((saveA stA storeA t s sd ok).1.df.getD j default).drop
            = (stA.df.getD j default).drop ∨
          ((saveA stA storeA t s sd ok).1.df.getD j default).drop
            = Value.str "False") ∧
    (∀ j, ((dropA stA storeA ok).1.df.getD j default).drop
            = (stA.df.getD j default).drop ∨
          ((dropA stA storeA ok).1.df.getD j default).drop
            = Value.bool true) ∧
    (∀ j, ((handleSubmit stB storeB t s sd dropFlag name pushOk).1.df.getD
            j default).drop = (stB.df.getD j default).drop ∨
          ((handleSubmit stB storeB t s sd dropFlag name pushOk).1.df.getD
            j default).drop = Value.str "True" ∨
          ((handleSubmit stB storeB t s sd dropFlag name pushOk).1.df.getD
            j default).drop = Value.str "False") := by
  have hgen : ∀ (f : Row → Row) (v : Value), (∀ r, (f r).drop = v) →
      ∀ (l : List Row) (i j : Nat),
        ((updateAt f l i).getD j default).drop = (l.getD j default).drop ∨
        ((updateAt f l i).getD j default).drop = v := by
    intro f v hf l i j
    by_cases hj : j = i
    · subst hj
      by_cases hlt : j < l.length
      · rw [getD_updateAt_self _ _ _ hlt]
        exact Or.inr (hf _)
      · rw [updateAt_of_le _ _ _ (by omega)]
        exact Or.inl rfl
    · rw [getD_updateAt_ne _ _ _ _ hj]
      exact Or.inl rfl
  have hBdf : (handleSubmit stB storeB t s sd dropFlag name pushOk).1.df
      = coerceCol (updateAt (submitRow t s sd dropFlag) stB.df (currentIdxB stB)) ∨
      (handleSubmit stB storeB t s sd dropFlag name pushOk).1.df
      = updateAt (submitRow t s sd dropFlag) stB.df (currentIdxB stB) := by
    rw [handleSubmit_verified _ _ _ _ _ _ _ _ hver]
    cases pushOk
    · exact Or.inr rfl
    · exact Or.inl rfl
  refine ⟨?_, ?_, ?_⟩
  · intro j
    exact hgen (submitRow t s sd false) (Value.str "False") (fun r => rfl)
      stA.df stA.currentIndex j
  · intro j
    exact hgen dropRowA (Value.bool true) (fun r => rfl)
      stA.df stA.currentIndex j
  · intro j
    have hd : ((handleSubmit stB storeB t s sd dropFlag name pushOk).1.df.getD
        j default).drop
        = ((updateAt (submitRow t s sd dropFlag) stB.df (currentIdxB stB)).getD
            j default).drop := by
      rcases hBdf with h | h
      · rw [h]
        exact coerceCol_getD_drop _ j
      · rw [h]
    rw [hd]
    rcases hgen (submitRow t s sd dropFlag)
        (Value.str (if dropFlag then "True" else "False")) (fun r => rfl)
        stB.df (currentIdxB stB) j with h | h
    · exact Or.inl h
    · rw [h]
      cases dropFlag
      · exact Or.inr (Or.inr rfl)
      · exact Or.inr (Or.inl rfl)

/-- C10 witness: concrete saves and drops on the one-row table,
exercising each disjunct family at row 0. -/
theorem C10_witness :
    (((saveA ⟨[rowU], 0⟩ [] "Simple" "Small" "Right" true).1.df.getD
        0 default).drop = rowU.drop ∨
     ((saveA ⟨[rowU], 0⟩ [] "Simple" "Small" "Right" true).1.df.getD
        0 default).drop = Value.str "False") ∧
    (((dropA ⟨[rowU], 0⟩ [] true).1.df.getD 0 default).drop = rowU.drop ∨
     ((dropA ⟨[rowU], 0⟩ [] true).1.df.getD 0 default).drop
        = Value.bool true) ∧
    (((handleSubmit ⟨[rowU], [0], 0⟩ [] "Simple" "Small" "Right" true
        "img0" true).1.df.getD 0 default).drop = rowU.drop ∨
     ((handleSubmit ⟨[rowU], [0], 0⟩ [] "Simple" "Small" "Right" true
        "img0" true).1.df.getD 0 default).drop = Value.str "True" ∨
     ((handleSubmit ⟨[rowU], [0], 0⟩ [] "Simple" "Small" "Right" true
        "img0" true).1.df.getD 0 default).drop = Value.str "False") := by
  have h := C10_amended ⟨[rowU], 0⟩ [] "Simple" "Small" "Right" true
    ⟨[rowU], [0], 0⟩ [] true true "img0" (by decide)
  exact ⟨h.1 0, h.2.1 0, h.2.2 0⟩

/-- Changing only the position keeps the list part of the invariant. -/
theorem cursorInvB_pos_change (st : StateB) (p : Int) (h : cursorInvB st)
    (hp : p = -1 ∨ (0 ≤ p ∧ p < (st.unlabeled.length : Int))) :
    cursorInvB { st with pos := p } :=
  ⟨hp, h.2⟩

/-- The recompute step establishes the variant B cursor invariant. -/
theorem cursorInvB_recompute (df : List Row) : cursorInvB (recompute df) := by
  constructor
  · rw [recompute_pos]
    by_cases h : (recompute df).unlabeled = []
    · rw [if_pos h]
      exact Or.inl rfl
    · rw [if_neg h]
      refine Or.inr ⟨le_refl 0, ?_⟩
      have hlen : 0 < (recompute df).unlabeled.length := List.length_pos.mpr h
      exact_mod_cast hlen
  · intro i hi
    rw [recompute_unlabeled, mem_computeUnlabeled] at hi
    obtain ⟨hlen, hflag⟩ := hi
    constructor
    · show i < (coerceCol df).length
      rw [coerceCol_length]
      exact hlen
    · show coerceNumeric (((coerceCol df).getD i default).labelFlag) = 0
      rw [coerceCol_getD_lt _ _ hlen]
      exact hflag

/-- C6 counterexample: the claim `every operation preserves the cursor
invariant` is false: a variant B save whose store write fails keeps
the in-memory mutation but not the list/position, leaving the cursor
on a row whose `Label_Flag` is now 1 (no longer unlabeled). -/
theorem C6_counterexample :
    cursorInvB ⟨[rowU], [0], 0⟩ ∧
    ¬ cursorInvB (handleSubmit ⟨[rowU], [0], 0⟩ [rowU] "Simple" "Small"
        "Right" false "img0" false).1 := by
  decide

/-- C6 (amended): navigation, the scan, saves and drops preserve
variant A's invariant (index within `[0, len]`); variant B's
navigation preserves its invariant, and the recompute step — hence any
save/drop that passes the identity check and whose push succeeds —
establishes it.  (A failed push breaks it, see the counterexample.) -/
theorem C6_amended
    (stA : StateA) (storeA : List Row) (t s sd : String) (ok : Bool)
    (hA : cursorInvA stA)
    (stB : StateB) (df storeB : List Row) (dropFlag : Bool) (name : String)
    (hB : cursorInvB stB)
    (hver : verify_before_save stB.df (currentIdxB stB) name = true) :
    cursorInvA (navPrevA stA) ∧
    cursorInvA (navNextA stA) ∧
    cursorInvA (scanA stA) ∧
    cursorInvA (saveA stA storeA t s sd ok).1 ∧
    cursorInvA (dropA stA storeA ok).1 ∧
    cursorInvB (navPrevB stB) ∧
    cursorInvB (navNextB stB) ∧
    cursorInvB (recompute df) ∧
    cursorInvB (handleSubmit stB storeB t s sd dropFlag name true).1 := by
  unfold cursorInvA at hA
  refine ⟨?_, ?_, ?_, ?_, ?_, ?_, ?_, cursorInvB_recompute df, ?_⟩
  · unfold navPrevA
    by_cases h : 0 < stA.currentIndex
    · rw [if_pos h]
      show stA.currentIndex - 1 ≤ stA.df.length
      omega
    · rw [if_neg h]
      exact hA
  · unfold navNextA
    by_cases h : stA.currentIndex + 1 < stA.df.length
    · rw [if_pos h]
      show stA.currentIndex + 1 ≤ stA.df.length
      omega
    · rw [if_neg h]
      exact hA
  · show scanForward stA.df stA.currentIndex ≤ stA.df.length
    exact scanForward_le _ _ hA
  · show stA.currentIndex ≤ (updateAt (submitRow t s sd false) stA.df
      stA.currentIndex).length
    rw [updateAt_length]
    exact hA
  · show stA.currentIndex ≤ (updateAt dropRowA stA.df
      stA.currentIndex).length
    rw [updateAt_length]
    exact hA
  · unfold navPrevB
    by_cases h : 0 < stB.pos
    · rw [if_pos h]
      refine cursorInvB_pos_change stB _ hB (Or.inr ⟨by omega, ?_⟩)
      rcases hB.1 with h1 | h1
      · omega
      · omega
    · rw [if_neg h]
      exact hB
  · unfold navNextB
    by_cases h : stB.pos < (stB.unlabeled.length : Int) - 1
    · rw [if_pos h]
      refine cursorInvB_pos_change stB _ hB (Or.inr ⟨?_, by omega⟩)
      rcases hB.1 with h1 | h1
      · omega
      · omega
    · rw [if_neg h]
      exact hB
  · rw [handleSubmit_verified _ _ _ _ _ _ _ _ hver, if_pos rfl]
    exact cursorInvB_recompute _

/-- C6 witness: a valid one-row state in each variant; every listed
operation preserves (or re-establishes) the invariant there. -/
theorem C6_witness :
    cursorInvA (navPrevA ⟨[rowU], 0⟩) ∧
    cursorInvA (navNextA ⟨[rowU], 0⟩) ∧
    cursorInvA (scanA ⟨[rowU], 0⟩) ∧
    cursorInvA (saveA ⟨[rowU], 0⟩ [] "Simple" "Small" "Right" true).1 ∧
    cursorInvA (dropA ⟨[rowU], 0⟩ [] true).1 ∧
    cursorInvB (navPrevB ⟨[rowU], [0], 0⟩) ∧
    cursorInvB (navNextB ⟨[rowU], [0], 0⟩) ∧
    cursorInvB (recompute [rowU]) ∧
    cursorInvB (handleSubmit ⟨[rowU], [0], 0⟩ [] "Simple" "Small" "Right"
      false "img0" true).1 :=
  C6_amended ⟨[rowU], 0⟩ [] "Simple" "Small" "Right" true (by decide)
    ⟨[rowU], [0], 0⟩ [rowU] [] false "img0" (by decide) (by decide)

end Pneumo
